import Mathlib

/-!
Shallow embedding of the OCR image-preparation core of ScreenTranslator
(`src/ocr/tesseract.cpp`): the adaptive-scaling heuristic `getScale`, the
preprocessing pipeline `prepareImage` (with an explicit buffer-ownership
trace), and the facade `Tesseract` (constructor, `init`, `recognize`,
`isValid`).

Modelling conventions:
- Leptonica's `Pix` is modelled by its metadata relevant to the shown code:
  width `w`, height `h`, bit depth `d` (all `l_uint32`, modelled as `Nat`)
  and the stored resolutions `xRes`/`yRes` (`l_int32`, modelled as `Int`).
- C `double` arithmetic is modelled exactly over `ℚ`.  The two places where
  IEEE division by zero would yield `+inf` (`INT_MAX / double(0)` and
  `availableMemory / 0`) are modelled by explicit zero tests selecting the
  branch that the `+inf` value would select in `std::min`.
- `l_uint32` multiplication wraps modulo `2 ^ 32`; the footprint computation
  `source->w * source->h * source->d / 8` keeps those wraps explicit.
- External collaborators (Qt image conversion, Leptonica's grayscale
  conversion and scaler, the Tesseract engine, the OS free-memory probe) are
  inputs of the model: an environment records whether each fallible external
  call succeeds and what the engine/OS return.  `SOFT_ASSERT(c, return v)`
  is the project's soft assertion: it logs and early-returns `v` when `c`
  fails, which is modelled as the corresponding early return.
-/

namespace ScreenTranslator

/-- Metadata of a Leptonica `Pix` buffer as used by `tesseract.cpp`:
dimensions `w`/`h`, bit depth `d` (fields `source->w`, `source->h`,
`source->d`) and the resolutions read by `pixGetXRes`/`pixGetYRes`. -/
structure Pix where
  w : Nat
  h : Nat
  d : Nat
  xRes : Int
  yRes : Int
deriving DecidableEq, Repr

/-- `std::numeric_limits<int>::max()` on the target platform (32-bit `int`). -/
def intMax : Int := 2147483647

/-- Line 72: `std::max(500.0 / std::min(xRes, yRes), 1.0)`.  The `std::min`
is on C `int`s, the division is in `double` (exact here over `ℚ`). -/
def preferredScale (s : Pix) : ℚ :=
  max (500 / ((min s.xRes s.yRes : Int) : ℚ)) 1

/-- Lines 76-79: one axis clamp, `std::min(preferredScale, INT_MAX / double(dim))`.
When `dim = 0` the C expression `INT_MAX / double(dim)` is IEEE `+inf` and the
`std::min` selects `preferredScale`; the zero test makes that branch explicit. -/
def axisClamp (dim : Nat) (pref : ℚ) : ℚ :=
  if dim = 0 then pref else min pref ((intMax : ℚ) / (dim : ℚ))

/-- Line 80: `std::min(scaleX, scaleY)` with `scaleX`, `scaleY` the two
axis-clamped scales of lines 76-79. -/
def geomScale (s : Pix) : ℚ :=
  min (axisClamp s.w (preferredScale s)) (axisClamp s.h (preferredScale s))

/-- Line 82: `getFreeMemory() * 0.95`, with the free-memory probe's reading
(`qint64`) passed in as `freeMem`. -/
def memAvail (freeMem : Int) : ℚ := (freeMem : ℚ) * (95 / 100)

/-- Line 86: `source->w * source->h * source->d / 8`, evaluated left-to-right
in `l_uint32` arithmetic: each product wraps modulo `2 ^ 32`, then the
division by 8 truncates. -/
def footprint (s : Pix) : Nat :=
  s.w * s.h % 2 ^ 32 * s.d % 2 ^ 32 / 8

/-- Lines 63-91, `static double getScale(Pix *source)`, with the ambient
`getFreeMemory()` reading passed in as `freeMem`:
* null source → `-1.0` (soft assert, line 65);
* `xRes * yRes == 0` → `-1.0` (lines 69-70);
* preferred scale ≤ 1 → `-1.0` (lines 73-74);
* available memory `< 1` → `-1.0` (lines 83-84);
* otherwise the geometry-clamped scale further clamped by
  `availableMemory / actualSize` (lines 86-90).  When `actualSize = 0` the C
  division is IEEE `+inf` and `std::min` keeps the geometry-clamped scale,
  which the zero test makes explicit. -/
def getScale (source : Option Pix) (freeMem : Int) : ℚ :=
  match source with
  | none => -1
  | some s =>
    if s.xRes * s.yRes = 0 then -1
    else if preferredScale s ≤ 1 then -1
    else if memAvail freeMem < 1 then -1
    else if footprint s = 0 then geomScale s
    else min (geomScale s) (memAvail freeMem / (footprint s : ℚ))

/-- `pixConvertRGBToGray` (line 99): on success it produces an 8 bpp buffer
with the source's dimensions and resolution (it copies the resolution from
its input). -/
def grayOf (p : Pix) : Pix := { p with d := 8 }

/-- One scaled dimension of `pixScale` at factor `s`:
`(l_int32)(scale * dim + 0.5)` (Leptonica's linear-interpolation scalers). -/
def scaleDim (s : ℚ) (dim : Nat) : Nat := (⌊s * (dim : ℚ) + 1 / 2⌋).toNat

/-- `pixScale(src, s, s)` (line 109) on success: both dimensions scaled by
`s`, depth preserved, stored resolution rescaled by the same factor
(Leptonica's `pixScaleResolution`). -/
def scaledOf (s : ℚ) (p : Pix) : Pix :=
  { w := scaleDim s p.w
    h := scaleDim s p.h
    d := p.d
    xRes := ⌊s * (p.xRes : ℚ) + 1 / 2⌋
    yRes := ⌊s * (p.yRes : ℚ) + 1 / 2⌋ }

/-- Identities of the pixel buffers a single `prepareImage` pass can
allocate: the converted buffer (line 95), the grayscale buffer (line 99) and
the scaled buffer (line 109). -/
inductive BufId
  | converted
  | gray
  | scaled
deriving DecidableEq, Repr

/-- Environment of one `prepareImage` pass: the result of
`convertImage(image)` (line 95, `none` when Qt/Leptonica conversion fails),
whether `pixConvertRGBToGray` returns non-null (line 99), whether `pixScale`
returns non-null (line 109), and the ambient `getFreeMemory()` reading. -/
structure PrepEnv where
  convertResult : Option Pix
  grayOk : Bool
  scaleOk : Bool
  freeMem : Int
deriving DecidableEq, Repr

/-- Outcome of one `prepareImage` pass: the returned buffer (`none` models a
null return), plus the ownership trace — which buffers the pass allocated,
which it released with `pixDestroy`, and the identity of the returned one. -/
structure PrepResult where
  result : Option Pix
  allocated : List BufId
  destroyed : List BufId
  returned : Option BufId
deriving DecidableEq, Repr

/-- Lines 93-121, `static Pix *prepareImage(const QImage &image)`:
* `convertImage` null → return null (soft assert, line 96), nothing allocated;
* `pixConvertRGBToGray` null → return null (soft assert, line 101) — note the
  converted buffer is allocated but `pixDestroy(&pix)` (line 102) is only
  reached after this assert, so it is not destroyed on that path;
* otherwise the converted buffer is destroyed (line 102) and
  `getScale` decides scaling (line 108): if the scale is `> 1.0` and
  `pixScale` succeeds, the grayscale buffer is destroyed (lines 115-117) and
  the scaled buffer returned; if `pixScale` fails the grayscale buffer is the
  fallback (lines 111-112); otherwise the grayscale buffer is returned. -/
def prepareImage (env : PrepEnv) : PrepResult :=
  match env.convertResult with
  | none => ⟨none, [], [], none⟩
  | some pix =>
    if env.grayOk = false then
      ⟨none, [.converted], [], none⟩
    else
      let g := grayOf pix
      if getScale (some g) env.freeMem > 1 then
        if env.scaleOk then
          ⟨some (scaledOf (getScale (some g) env.freeMem) g),
           [.converted, .gray, .scaled], [.converted, .gray], some .scaled⟩
        else
          ⟨some g, [.converted, .gray], [.converted], some .gray⟩
      else
        ⟨some g, [.converted, .gray], [.converted], some .gray⟩

/-- Externally observable state of a `Tesseract` session: whether `engine_`
holds a live engine, and the `error_` string. -/
structure TesseractState where
  engineValid : Bool
  error : String
deriving DecidableEq, Repr

/-- Lines 215-218, `Tesseract::isValid`: true exactly when `engine_` is
non-null. -/
def TesseractState.isValid (st : TesseractState) : Bool := st.engineValid

/-- Lines 138-156, `Tesseract::init`, with the engine's `Init` return code
passed in as `initResult` (0 on success):
* soft assert `!engine_` → return leaving the state unchanged;
* `Init` returns 0 → engine kept, no error;
* otherwise `error_ = "init failed"` and the engine is reset. -/
def Tesseract.init (st : TesseractState) (initResult : Int) : TesseractState :=
  if st.engineValid then st
  else if initResult = 0 then ⟨true, ""⟩
  else ⟨false, "init failed"⟩

/-- Lines 128-134, the `Tesseract` constructor: a default-constructed state
(`engine_` null, `error_` empty), then soft asserts that `tessdataPath` and
`language` are non-empty — returning early, before `init`, if either is
empty — and otherwise runs `init`. -/
def Tesseract.construct (language tessdataPath : String) (initResult : Int) :
    TesseractState :=
  if tessdataPath.isEmpty then ⟨false, ""⟩
  else if language.isEmpty then ⟨false, ""⟩
  else Tesseract.init ⟨false, ""⟩ initResult

/-- Outcome of one `Tesseract::recognize` call: the returned `QString`, the
session state after the call, and whether the engine was invoked
(`SetImage`/`GetUTF8Text`). -/
structure RecognizeOutcome where
  text : String
  finalState : TesseractState
  engineCalled : Bool
deriving DecidableEq, Repr

/-- The message set at line 211 (`QObject::tr`, untranslated source text). -/
def recognizeFailMsg : String := "Failed to recognize text or no text selected"

/-- `QString::trimmed()` (line 206): the string with leading and trailing
whitespace removed. -/
def trimmed (s : String) : String :=
  ⟨((s.data.dropWhile Char.isWhitespace).reverse.dropWhile
      Char.isWhitespace).reverse⟩

/-- Lines 187-213, `Tesseract::recognize(const QPixmap &source)`, with the
null test of `source` passed as `sourceNull`, the preprocessing environment
as `penv` and the engine's `GetUTF8Text` output as `engineText`:
* soft assert `engine_` (line 189) → return empty, state untouched;
* soft assert `!source.isNull()` (line 190) → return empty, state untouched;
* `error_.clear()` (line 192);
* `prepareImage` null (soft assert, line 195) → return empty, error stays
  cleared, engine not invoked;
* otherwise the engine text is trimmed (line 206) and, if the trimmed text
  is empty, `error_` is set to `recognizeFailMsg` (lines 210-211). -/
def Tesseract.recognize (st : TesseractState) (sourceNull : Bool)
    (penv : PrepEnv) (engineText : String) : RecognizeOutcome :=
  if st.engineValid = false then ⟨"", st, false⟩
  else if sourceNull then ⟨"", st, false⟩
  else
    match (prepareImage penv).result with
    | none => ⟨"", ⟨st.engineValid, ""⟩, false⟩
    | some _ =>
      let result := trimmed engineText
      if result.isEmpty then
        ⟨result, ⟨st.engineValid, recognizeFailMsg⟩, true⟩
      else
        ⟨result, ⟨st.engineValid, ""⟩, true⟩

/-! ## Helper lemmas -/

/-- A null `source` or buffers aside, when the stored resolutions multiply
to zero `getScale` rejects at lines 69-70. -/
lemma getScale_res_zero (p : Pix) (m : Int) (h : p.xRes * p.yRes = 0) :
    getScale (some p) m = -1 := by
  simp only [getScale]
  rw [if_pos h]

/-- The per-axis clamp never exceeds the preferred scale. -/
lemma axisClamp_le_pref (dim : Nat) (pref : ℚ) : axisClamp dim pref ≤ pref := by
  unfold axisClamp
  split
  · exact le_refl _
  · exact min_le_left _ _

/-- Any value below the per-axis clamp keeps the scaled dimension within
the platform's `int` range. -/
lemma mul_le_of_le_axisClamp (dim : Nat) (pref x : ℚ)
    (hx : x ≤ axisClamp dim pref) : (dim : ℚ) * x ≤ (intMax : ℚ) := by
  unfold axisClamp at hx
  by_cases hd : dim = 0
  · subst hd
    norm_num [intMax]
  · rw [if_neg hd] at hx
    have hpos : (0 : ℚ) < (dim : ℚ) := by
      exact_mod_cast Nat.pos_of_ne_zero hd
    have hx2 : x ≤ (intMax : ℚ) / (dim : ℚ) := le_trans hx (min_le_right _ _)
    have hmul := (le_div_iff₀ hpos).mp hx2
    linarith [hmul]

/-- `getScale` on a 1000×800 8 bpp buffer at 100×100 dpi with at least
4210527 bytes of free memory: the preferred scale 5 survives both clamps. -/
lemma getScale_scenarioA (m : Int) (hm : 4210527 ≤ m) :
    getScale (some ⟨1000, 800, 8, 100, 100⟩) m = 5 := by
  have hmem : ¬ memAvail m < 1 := by
    have hq : (4210527 : ℚ) ≤ (m : ℚ) := by exact_mod_cast hm
    simp only [memAvail]; push_neg; nlinarith
  have hbound : (5 : ℚ) ≤ memAvail m / 800000 := by
    have hq : (4210527 : ℚ) ≤ (m : ℚ) := by exact_mod_cast hm
    rw [le_div_iff₀ (by norm_num : (0 : ℚ) < 800000)]
    simp only [memAvail]; nlinarith
  simp only [getScale, preferredScale, axisClamp, geomScale, footprint, intMax]
  norm_num [min_def, max_def]
  rw [if_neg hmem, if_pos hbound]

/-- `getScale` on the same buffer when only 1000000 bytes are free: the
memory clamp `0.95 * 1000000 / 800000 = 19/16` binds. -/
lemma getScale_scenarioA_lowmem :
    getScale (some ⟨1000, 800, 8, 100, 100⟩) 1000000 = 19 / 16 := by
  simp only [getScale, preferredScale, axisClamp, geomScale, footprint, memAvail,
    intMax]
  norm_num [min_def, max_def]

/-- Every buffer `prepareImage` returns is 8 bits deep: it is either the
grayscale buffer or a scaled copy of it, and scaling preserves depth. -/
lemma prepare_d_eight (env : PrepEnv) (p : Pix)
    (h : (prepareImage env).result = some p) : p.d = 8 := by
  obtain ⟨cr, gOk, sOk, m⟩ := env
  rcases cr with _ | pix
  · simp [prepareImage] at h
  · simp only [prepareImage] at h
    split at h
    · simp at h
    · split at h
      · split at h
        · simp only [Option.some.injEq] at h
          rw [← h]
          rfl
        · simp only [Option.some.injEq] at h
          rw [← h]
          rfl
      · simp only [Option.some.injEq] at h
        rw [← h]
        rfl

/-! ## Claims -/

/-- Claim C1: for a 1000×800 source at 100×100 dpi and free memory large
enough that the memory clamp does not bind (at least 4210527 bytes, i.e.
`0.95 * m / 800000 ≥ 5`), `getScale` on the grayscale buffer returns
exactly 5, and `prepareImage` returns a 5000×4000 buffer of depth 8. -/
theorem claim_C1_scenarioA (m : Int) (hm : 4210527 ≤ m) :
    getScale (some (grayOf ⟨1000, 800, 32, 100, 100⟩)) m = 5 ∧
    (prepareImage ⟨some ⟨1000, 800, 32, 100, 100⟩, true, true, m⟩).result
      = some ⟨5000, 4000, 8, 500, 500⟩ := by
  have hs : getScale (some (grayOf ⟨1000, 800, 32, 100, 100⟩)) m = 5 :=
    getScale_scenarioA m hm
  refine ⟨hs, ?_⟩
  simp only [prepareImage, hs]
  norm_num [scaledOf, scaleDim, grayOf]
  exact ⟨rfl, rfl⟩

/-- Witness for C1 at the concrete free-memory reading 5000000. -/
theorem claim_C1_scenarioA_witness :
    (4210527 : Int) ≤ 5000000 ∧
    (getScale (some (grayOf ⟨1000, 800, 32, 100, 100⟩)) 5000000 = 5 ∧
     (prepareImage ⟨some ⟨1000, 800, 32, 100, 100⟩, true, true, 5000000⟩).result
       = some ⟨5000, 4000, 8, 500, 500⟩) :=
  ⟨by decide, claim_C1_scenarioA 5000000 (by decide)⟩

/-- Claim C2, counterexample: with a valid engine, a non-null source and a
preprocessing pass that returns null, `recognize` returns empty text but
the error field is left EMPTY (it was cleared at line 192 and the soft
assert at line 195 returns without setting it), not a non-empty error as
the claim states. -/
theorem claim_C2_counterexample :
    (prepareImage ⟨none, true, true, 0⟩).result = none ∧
    (Tesseract.recognize ⟨true, "old"⟩ false ⟨none, true, true, 0⟩ "x").text = "" ∧
    (Tesseract.recognize ⟨true, "old"⟩ false ⟨none, true, true, 0⟩ "x").finalState.error
      = "" :=
  ⟨rfl, rfl, rfl⟩

/-- Claim C2, amended: whenever `prepareImage` returns null inside a
`recognize` call on a valid engine with a non-null source, `recognize`
returns empty text, the engine is not invoked, and the error field is left
empty (cleared); the failure is reported only through the assertion log. -/
theorem claim_C2_amended (st : TesseractState) (penv : PrepEnv) (t : String)
    (h1 : st.engineValid = true) (h2 : (prepareImage penv).result = none) :
    Tesseract.recognize st false penv t = ⟨"", ⟨true, ""⟩, false⟩ := by
  simp only [Tesseract.recognize, h1, h2]
  rfl

/-- Witness for the amended C2 at a concrete failing conversion. -/
theorem claim_C2_amended_witness :
    ((⟨true, "z"⟩ : TesseractState).engineValid = true) ∧
    ((prepareImage ⟨none, true, true, 0⟩).result = none) ∧
    Tesseract.recognize ⟨true, "z"⟩ false ⟨none, true, true, 0⟩ "w"
      = ⟨"", ⟨true, ""⟩, false⟩ :=
  ⟨rfl, rfl, claim_C2_amended ⟨true, "z"⟩ ⟨none, true, true, 0⟩ "w" rfl rfl⟩

/-- Claim C3 (code bug): on the path where grayscale conversion returns
null, `prepareImage` returns null with the converted buffer still
allocated and never destroyed — `pixDestroy(&pix)` at line 102 sits after
the `SOFT_ASSERT(gray, return nullptr)` at line 101, so the converted
buffer leaks, violating the release-on-every-path invariant. -/
theorem claim_C3_grayfail_leak :
    (prepareImage ⟨some ⟨1000, 800, 32, 100, 100⟩, false, true, 5000000⟩).result
      = none ∧
    BufId.converted ∈
      (prepareImage ⟨some ⟨1000, 800, 32, 100, 100⟩, false, true, 5000000⟩).allocated ∧
    BufId.converted ∉
      (prepareImage ⟨some ⟨1000, 800, 32, 100, 100⟩, false, true, 5000000⟩).destroyed :=
  ⟨rfl, by decide, by decide⟩

/-- Claim C4, counterexample: `recognize` on a null source returns empty
text and makes no engine call, but the error field is NOT cleared — the
null-source soft assert at line 190 runs before `error_.clear()` at line
192, so an error left by a previous call survives. -/
theorem claim_C4_counterexample :
    (Tesseract.recognize ⟨true, "stale"⟩ true ⟨none, true, true, 0⟩ "").text = "" ∧
    (Tesseract.recognize ⟨true, "stale"⟩ true ⟨none, true, true, 0⟩ "").engineCalled
      = false ∧
    (Tesseract.recognize ⟨true, "stale"⟩ true ⟨none, true, true, 0⟩ "").finalState.error
      ≠ "" :=
  ⟨rfl, rfl, by decide⟩

/-- Claim C4, amended: `recognize` on a null source returns empty text,
makes no engine call, and leaves the whole session state — including the
error field — exactly as it was before the call. -/
theorem claim_C4_amended (st : TesseractState) (penv : PrepEnv) (t : String) :
    Tesseract.recognize st true penv t = ⟨"", st, false⟩ := by
  obtain ⟨b, e⟩ := st
  cases b <;> rfl

/-- Claim C5: on a valid engine with a non-null source whose preprocessing
succeeds, the returned text is the whitespace-trimmed engine output, and
the error field equals "Failed to recognize text or no text selected" if
and only if the trimmed text is empty. -/
theorem claim_C5_trim_error (st : TesseractState) (penv : PrepEnv) (t : String)
    (p : Pix) (h1 : st.engineValid = true)
    (h2 : (prepareImage penv).result = some p) :
    (Tesseract.recognize st false penv t).text = trimmed t ∧
    ((Tesseract.recognize st false penv t).finalState.error = recognizeFailMsg
      ↔ trimmed t = "") := by
  simp only [Tesseract.recognize, h1, h2]
  by_cases he : (trimmed t).isEmpty
  · have heq : trimmed t = "" := (String.isEmpty_iff _).mp he
    rw [heq]
    rw [if_pos (show ("" : String).isEmpty = true from rfl)]
    exact ⟨rfl, ⟨fun _ => rfl, fun _ => rfl⟩⟩
  · have hne : ¬ trimmed t = "" := fun hh => he ((String.isEmpty_iff _).mpr hh)
    simp only [he, if_neg, Bool.false_eq_true, if_false]
    refine ⟨rfl, ?_⟩
    constructor
    · intro hmsg
      exact absurd hmsg.symm (by simp [recognizeFailMsg])
    · intro hh
      exact absurd hh hne

/-- Witness for C5 at a whitespace-only engine output. -/
theorem claim_C5_trim_error_witness :
    ((⟨true, ""⟩ : TesseractState).engineValid = true) ∧
    ((prepareImage ⟨some ⟨10, 10, 32, 0, 0⟩, true, true, 0⟩).result
       = some ⟨10, 10, 8, 0, 0⟩) ∧
    trimmed " \t " = "" ∧
    ((Tesseract.recognize ⟨true, ""⟩ false ⟨some ⟨10, 10, 32, 0, 0⟩, true, true, 0⟩
        " \t ").text = trimmed " \t " ∧
     ((Tesseract.recognize ⟨true, ""⟩ false ⟨some ⟨10, 10, 32, 0, 0⟩, true, true, 0⟩
         " \t ").finalState.error = recognizeFailMsg ↔ trimmed " \t " = "")) :=
  ⟨rfl, rfl, by decide,
   claim_C5_trim_error ⟨true, ""⟩ ⟨some ⟨10, 10, 32, 0, 0⟩, true, true, 0⟩ " \t "
     ⟨10, 10, 8, 0, 0⟩ rfl rfl⟩

/-- Claim C6: for every buffer with known density (nonzero resolution
product) whose minimum resolution is at least 500, `getScale` returns the
sentinel -1. -/
theorem claim_C6_highres_sentinel (p : Pix) (m : Int) (h0 : p.xRes * p.yRes ≠ 0)
    (h1 : 500 ≤ min p.xRes p.yRes) : getScale (some p) m = -1 := by
  have hpos : (0 : ℚ) < ((min p.xRes p.yRes : Int) : ℚ) := by
    have hlt : (0 : Int) < min p.xRes p.yRes := lt_of_lt_of_le (by norm_num) h1
    exact_mod_cast hlt
  have hdiv : (500 : ℚ) / ((min p.xRes p.yRes : Int) : ℚ) ≤ 1 := by
    rw [div_le_one hpos]
    exact_mod_cast h1
  have hpref : preferredScale p ≤ 1 := by
    unfold preferredScale
    exact max_le hdiv le_rfl
  simp only [getScale]
  rw [if_neg h0, if_pos hpref]

/-- Witness for C6 at resolution 600×700. -/
theorem claim_C6_highres_sentinel_witness :
    ((⟨100, 100, 32, 600, 700⟩ : Pix).xRes * (⟨100, 100, 32, 600, 700⟩ : Pix).yRes
       ≠ 0) ∧
    (500 ≤ min (⟨100, 100, 32, 600, 700⟩ : Pix).xRes
       (⟨100, 100, 32, 600, 700⟩ : Pix).yRes) ∧
    getScale (some ⟨100, 100, 32, 600, 700⟩) 3 = -1 :=
  ⟨by decide, by decide,
   claim_C6_highres_sentinel ⟨100, 100, 32, 600, 700⟩ 3 (by decide) (by decide)⟩

/-- Claim C7: whenever `getScale` returns a scale above 1, both scaled
dimensions stay within the largest positive signed 32-bit integer and the
scale never exceeds the preferred scale `500 / min(xRes, yRes)`. -/
theorem claim_C7_geometry_bound (p : Pix) (m : Int) (s : ℚ)
    (hs : getScale (some p) m = s) (h1 : 1 < s) :
    (p.w : ℚ) * s ≤ (intMax : ℚ) ∧ (p.h : ℚ) * s ≤ (intMax : ℚ) ∧
    s ≤ 500 / ((min p.xRes p.yRes : Int) : ℚ) := by
  simp only [getScale] at hs
  split at hs
  · rw [← hs] at h1; norm_num at h1
  · split at hs
    · rw [← hs] at h1; norm_num at h1
    · rename_i hres hpref
      split at hs
      · rw [← hs] at h1; norm_num at h1
      · have hsg : s ≤ geomScale p := by
          split at hs
          · exact le_of_eq hs.symm
          · rw [← hs]; exact min_le_left _ _
        have hpref2 : 1 < preferredScale p := lt_of_not_le hpref
        have hprefEq : preferredScale p = 500 / ((min p.xRes p.yRes : Int) : ℚ) := by
          unfold preferredScale
          unfold preferredScale at hpref2
          rcases lt_max_iff.mp hpref2 with h | h
          · exact max_eq_left (le_of_lt h)
          · norm_num at h
        have hw : s ≤ axisClamp p.w (preferredScale p) :=
          le_trans hsg (min_le_left _ _)
        have hh : s ≤ axisClamp p.h (preferredScale p) :=
          le_trans hsg (min_le_right _ _)
        refine ⟨mul_le_of_le_axisClamp _ _ _ hw, mul_le_of_le_axisClamp _ _ _ hh, ?_⟩
        rw [← hprefEq]
        exact le_trans hw (axisClamp_le_pref _ _)

/-- Witness for C7 at the scenario-A buffer, scale 5. -/
theorem claim_C7_geometry_bound_witness :
    (getScale (some ⟨1000, 800, 8, 100, 100⟩) 5000000 = 5) ∧ ((1 : ℚ) < 5) ∧
    (((⟨1000, 800, 8, 100, 100⟩ : Pix).w : ℚ) * 5 ≤ (intMax : ℚ) ∧
     ((⟨1000, 800, 8, 100, 100⟩ : Pix).h : ℚ) * 5 ≤ (intMax : ℚ) ∧
     (5 : ℚ) ≤ 500 / ((min (⟨1000, 800, 8, 100, 100⟩ : Pix).xRes
        (⟨1000, 800, 8, 100, 100⟩ : Pix).yRes : Int) : ℚ)) :=
  ⟨getScale_scenarioA 5000000 (by decide), by decide,
   claim_C7_geometry_bound ⟨1000, 800, 8, 100, 100⟩ 5000000 5
     (getScale_scenarioA 5000000 (by decide)) (by decide)⟩

/-- Claim C8: when the resolution product is zero (density unknown),
`getScale` returns the sentinel -1 and `prepareImage` returns the
unscaled grayscale buffer. -/
theorem claim_C8_unknown_density (p : Pix) (m : Int) (sOk : Bool)
    (h : p.xRes * p.yRes = 0) :
    getScale (some p) m = -1 ∧
    (prepareImage ⟨some p, true, sOk, m⟩).result = some (grayOf p) := by
  have hg : getScale (some (grayOf p)) m = -1 :=
    getScale_res_zero (grayOf p) m (by simpa [grayOf] using h)
  refine ⟨getScale_res_zero p m h, ?_⟩
  simp only [prepareImage, hg]
  norm_num

/-- Witness for C8 at a buffer with `xRes = 0`. -/
theorem claim_C8_unknown_density_witness :
    ((⟨10, 10, 32, 0, 70⟩ : Pix).xRes * (⟨10, 10, 32, 0, 70⟩ : Pix).yRes = 0) ∧
    (getScale (some ⟨10, 10, 32, 0, 70⟩) 99 = -1 ∧
     (prepareImage ⟨some ⟨10, 10, 32, 0, 70⟩, true, true, 99⟩).result
       = some (grayOf ⟨10, 10, 32, 0, 70⟩)) :=
  ⟨by decide, claim_C8_unknown_density ⟨10, 10, 32, 0, 70⟩ 99 true (by decide)⟩

/-- Claim C9, counterexample: the same source image prepared under two
different free-memory readings yields buffers of different widths (5000
with ample memory versus 1188 when the memory clamp binds), so the claim's
"including when the ambient free-memory reading may differ" fails. -/
theorem claim_C9_counterexample :
    (prepareImage ⟨some ⟨1000, 800, 32, 100, 100⟩, true, true, 5000000⟩).result.map
        Pix.w
      ≠ (prepareImage ⟨some ⟨1000, 800, 32, 100, 100⟩, true, true, 1000000⟩).result.map
        Pix.w := by
  have h1 : getScale (some (grayOf ⟨1000, 800, 32, 100, 100⟩)) 5000000 = 5 :=
    getScale_scenarioA 5000000 (by decide)
  have h2 : getScale (some (grayOf ⟨1000, 800, 32, 100, 100⟩)) 1000000 = 19 / 16 :=
    getScale_scenarioA_lowmem
  have e1 : (prepareImage ⟨some ⟨1000, 800, 32, 100, 100⟩, true, true, 5000000⟩).result
      = some ⟨5000, 4000, 8, 500, 500⟩ := by
    simp only [prepareImage, h1]
    norm_num [scaledOf, scaleDim, grayOf]
    exact ⟨rfl, rfl⟩
  have e2 : (prepareImage ⟨some ⟨1000, 800, 32, 100, 100⟩, true, true, 1000000⟩).result
      = some ⟨1188, 950, 8, 119, 119⟩ := by
    simp only [prepareImage, h2]
    norm_num [scaledOf, scaleDim, grayOf]
    exact ⟨rfl, rfl⟩
  rw [e1, e2]
  simp

/-- Claim C9, amended: preparing the same source image twice yields buffers
of identical width, height and bit depth provided the ambient free-memory
reading (and the outcome of each external conversion step) is the same for
both calls; independently of the memory reading, every returned buffer has
bit depth 8. -/
theorem claim_C9_amended (e1 e2 : PrepEnv)
    (hc : e1.convertResult = e2.convertResult) (hg : e1.grayOk = e2.grayOk)
    (hsk : e1.scaleOk = e2.scaleOk) (hm : e1.freeMem = e2.freeMem) :
    (prepareImage e1).result.map (fun p => (p.w, p.h, p.d))
      = (prepareImage e2).result.map (fun p => (p.w, p.h, p.d)) ∧
    ∀ p, (prepareImage e1).result = some p → p.d = 8 := by
  obtain ⟨c1, g1, s1, m1⟩ := e1
  obtain ⟨c2, g2, s2, m2⟩ := e2
  simp only at hc hg hsk hm
  subst hc; subst hg; subst hsk; subst hm
  exact ⟨rfl, fun p h => prepare_d_eight _ p h⟩

/-- Witness for the amended C9 at a concrete environment. -/
theorem claim_C9_amended_witness :
    ((⟨some ⟨7, 7, 32, 0, 0⟩, true, true, 4⟩ : PrepEnv).convertResult
       = (⟨some ⟨7, 7, 32, 0, 0⟩, true, true, 4⟩ : PrepEnv).convertResult) ∧
    ((prepareImage ⟨some ⟨7, 7, 32, 0, 0⟩, true, true, 4⟩).result.map
        (fun p => (p.w, p.h, p.d))
       = (prepareImage ⟨some ⟨7, 7, 32, 0, 0⟩, true, true, 4⟩).result.map
        (fun p => (p.w, p.h, p.d)) ∧
     ∀ p, (prepareImage ⟨some ⟨7, 7, 32, 0, 0⟩, true, true, 4⟩).result = some p →
       p.d = 8) :=
  ⟨rfl, claim_C9_amended _ _ rfl rfl rfl rfl⟩

/-- Claim C10: constructing a session with an empty language or an empty
tessdata path leaves the engine uninitialized with an empty error string,
whereas an engine-init failure (nonzero `Init` result with both arguments
non-empty) leaves the engine invalid with error "init failed". -/
theorem claim_C10_ctor_guard (language tessdataPath : String) (r : Int)
    (h : language.isEmpty = true ∨ tessdataPath.isEmpty = true) :
    ((Tesseract.construct language tessdataPath r).isValid = false ∧
     (Tesseract.construct language tessdataPath r).error = "") ∧
    ∀ lang2 path2 : String, ∀ r2 : Int, lang2.isEmpty = false →
      path2.isEmpty = false → r2 ≠ 0 →
      (Tesseract.construct lang2 path2 r2).isValid = false ∧
      (Tesseract.construct lang2 path2 r2).error = "init failed" := by
  constructor
  · rcases h with h | h
    · by_cases hp : tessdataPath.isEmpty
      · simp [Tesseract.construct, TesseractState.isValid, hp]
      · simp [Tesseract.construct, TesseractState.isValid, hp, h]
    · simp [Tesseract.construct, TesseractState.isValid, h]
  · intro lang2 path2 r2 hl hp hr
    simp [Tesseract.construct, Tesseract.init, TesseractState.isValid, hl, hp, hr]

/-- Witness for C10 at an empty language with a non-empty path. -/
theorem claim_C10_ctor_guard_witness :
    (("" : String).isEmpty = true ∨ ("x" : String).isEmpty = true) ∧
    (((Tesseract.construct "" "x" 0).isValid = false ∧
      (Tesseract.construct "" "x" 0).error = "") ∧
     ∀ lang2 path2 : String, ∀ r2 : Int, lang2.isEmpty = false →
       path2.isEmpty = false → r2 ≠ 0 →
       (Tesseract.construct lang2 path2 r2).isValid = false ∧
       (Tesseract.construct lang2 path2 r2).error = "init failed") :=
  ⟨Or.inl rfl, claim_C10_ctor_guard "" "x" 0 (Or.inl rfl)⟩

end ScreenTranslator
